import Mathlib

/-!
# Verification of the solar-analemma computation core

Shallow embedding of the repository's astronomical computation engine
(the solar series module, the ENU aspect-locking scaler, and the calendar
helpers) over the real numbers, together with theorems checking the
specification's claims about it.

Conventions of the embedding:
* JS `number` arithmetic is modelled over the reals.
* The JS remainder operator `a % b` (sign of the dividend, truncating) is
  modelled by `jsMod`, and the wrap-into-range idiom
  `((a % b) + b) % b` by `jsWrap`.
* `Math.atan2 (y, x)` is modelled by the argument of the complex number
  `x + y i` (`Complex.arg`), which matches the JS case analysis for all
  inputs relevant here (negative zero is not modelled).
* The JS `Date` UTC civil-date arithmetic used by `dateFromDayOfYear`
  (`Date.UTC(year, 0, 1)` followed by `setUTCDate(day)`) is modelled by
  proleptic-Gregorian day-number arithmetic: `epochDaysJan1` encodes a year
  to the day number of its January 1, `civilFromDays` decodes a day number
  to a calendar triple, and `jsUtcYear` models the legacy two-digit-year
  aliasing of `Date.UTC` (years 0..99 mean 1900..1999).
-/

namespace Solar

/-! ## Numeric helpers (deg2rad / rad2deg / normalizeDeg from the source) -/

noncomputable def deg2rad (d : ℝ) : ℝ := d * Real.pi / 180

noncomputable def rad2deg (r : ℝ) : ℝ := r * 180 / Real.pi

/-- Truncation toward zero, as JS Number-to-integer conversion does. -/
noncomputable def jsTrunc (x : ℝ) : ℤ := if 0 ≤ x then ⌊x⌋ else ⌈x⌉

/-- JS remainder `a % b`: same sign as the dividend. -/
noncomputable def jsMod (a b : ℝ) : ℝ := a - b * (jsTrunc (a / b) : ℤ)

/-- The JS idiom `((a % b) + b) % b`, used by the source to wrap a value
into `[0, b)`. -/
noncomputable def jsWrap (a b : ℝ) : ℝ := jsMod (jsMod a b + b) b

/-- `normalizeDeg = (d) => ((d % 360) + 360) % 360` from the source. -/
noncomputable def normalizeDeg (d : ℝ) : ℝ := jsWrap d 360

/-- `Math.atan2 y x`, modelled as the argument of `x + y i`. -/
noncomputable def atan2 (y x : ℝ) : ℝ := Complex.arg ((x : ℂ) + (y : ℂ) * Complex.I)

/-! ## CalendarIndex (isLeapYear / daysInYear / dateFromDayOfYear) -/

/-- `isLeapYear(y)` from the source. JS `%` is the truncating remainder,
but a truncating remainder is zero exactly when the Euclidean remainder
is zero, so Lean's `%` on `ℤ` gives the same tests. -/
def isLeapYear (y : ℤ) : Bool := (y % 4 == 0 && y % 100 != 0) || y % 400 == 0

/-- `daysInYear(y)` from the source. -/
def daysInYear (y : ℤ) : ℤ := if isLeapYear y then 366 else 365

/-- Day number (proleptic Gregorian, day 0 = 0000-01-01 UTC) of January 1
of year `y`; models the day count behind `Date.UTC(y, 0, 1)`. -/
def epochDaysJan1 (y : ℤ) : ℤ :=
  365 * y + (y + 3) / 4 - (y + 99) / 100 + (y + 399) / 400

/-- Decode a day number to the (year, month, day) civil triple; models the
`getUTCFullYear/getUTCMonth/getUTCDate` decoding of a JS `Date`. -/
def civilFromDays (z : ℤ) : ℤ × ℤ × ℤ :=
  let z2 := z - 60
  let era := z2 / 146097
  let doe := z2 - era * 146097
  let yoe := (doe - doe / 1460 + doe / 36524 - doe / 146096) / 365
  let y := yoe + era * 400
  let doy := doe - (365 * yoe + yoe / 4 - yoe / 100)
  let mp := (5 * doy + 2) / 153
  let d := doy - (153 * mp + 2) / 5 + 1
  let m := if mp < 10 then mp + 3 else mp - 9
  (y + (if m ≤ 2 then 1 else 0), m, d)

/-- Legacy `Date.UTC` two-digit-year aliasing: years 0..99 denote
1900..1999. -/
def jsUtcYear (y : ℤ) : ℤ := if 0 ≤ y ∧ y ≤ 99 then y + 1900 else y

/-- `String(..).padStart(2, "0")` as used on month/day numbers. -/
def padStart2 (s : String) : String :=
  if s.length ≥ 2 then s else if s.length = 1 then "0" ++ s else "00"

/-- `dateFromDayOfYear(year, day)` from the source:
`new Date(Date.UTC(year, 0, 1))` then `date.setUTCDate(day)` (which adds
`day - 1` whole days to January 1, rolling over freely), then ISO
`YYYY-MM-DD` formatting of the UTC fields. -/
def dateFromDayOfYear (year day : ℤ) : String :=
  let c := civilFromDays (epochDaysJan1 (jsUtcYear year) + (day - 1))
  toString c.1 ++ "-" ++ padStart2 (toString c.2.1) ++ "-" ++ padStart2 (toString c.2.2)

/-! ## OrbitalEphemeris series (from computeAnalemmaPoints, lines 136-154,
computeEquationOfTime, lines 256-273, and computeAnalemmaInset,
lines 320-352 of the solar module) -/

/-- Fractional-year angle `gamma = (2π / nDays) * (n - 1 + 0.5)`, as
written identically in all three generators. -/
noncomputable def gammaOf (nDays n : ℝ) : ℝ := 2 * Real.pi / nDays * (n - 1 + 0.5)

/-- The 7-term declination series as written in `computeAnalemmaPoints`. -/
noncomputable def declMain (gamma : ℝ) : ℝ :=
  0.006918 -
    0.399912 * Real.cos gamma +
    0.070257 * Real.sin gamma -
    0.006758 * Real.cos (2 * gamma) +
    0.000907 * Real.sin (2 * gamma) -
    0.002697 * Real.cos (3 * gamma) +
    0.00148 * Real.sin (3 * gamma)

/-- The 7-term declination series as written (a second time, inline) in
`computeAnalemmaInset`'s `includeObliquity` branch. -/
noncomputable def declInsetSeries (gamma : ℝ) : ℝ :=
  0.006918 -
    0.399912 * Real.cos gamma +
    0.070257 * Real.sin gamma -
    0.006758 * Real.cos (2 * gamma) +
    0.000907 * Real.sin (2 * gamma) -
    0.002697 * Real.cos (3 * gamma) +
    0.00148 * Real.sin (3 * gamma)

/-- The single-series NOAA equation of time (minutes) used by
`computeAnalemmaPoints`. -/
noncomputable def eotMain (gamma : ℝ) : ℝ :=
  229.18 * (0.000075 +
    0.001868 * Real.cos gamma -
    0.032077 * Real.sin gamma -
    0.014615 * Real.cos (2 * gamma) -
    0.040849 * Real.sin (2 * gamma))

/-- Obliquity (axial-tilt) component of the equation of time, from
`computeEquationOfTime`. -/
noncomputable def obliquityComponentOf (gamma : ℝ) : ℝ :=
  229.18 * (-0.032077 * Real.sin gamma - 0.040849 * Real.sin (2 * gamma))

/-- Eccentricity component of the equation of time, from
`computeEquationOfTime`. -/
noncomputable def eccentricityComponentOf (gamma : ℝ) : ℝ :=
  229.18 * (0.000075 + 0.001868 * Real.cos gamma - 0.014615 * Real.cos (2 * gamma))

/-- Obliquity EoT contribution as written (again, inline) in
`computeAnalemmaInset`. -/
noncomputable def obliqInsetSeries (gamma : ℝ) : ℝ :=
  229.18 * (-0.032077 * Real.sin gamma - 0.040849 * Real.sin (2 * gamma))

/-- Eccentricity EoT contribution as written (again, inline) in
`computeAnalemmaInset`. -/
noncomputable def eccInsetSeries (gamma : ℝ) : ℝ :=
  229.18 * (0.000075 + 0.001868 * Real.cos gamma - 0.014615 * Real.cos (2 * gamma))

/-! ## HourAngleResolver (computeAnalemmaPoints lines 156-173, and
identically computeAnalemmaInset lines 354-361) -/

/-- True solar time in minutes, wrapped into `[0, 1440)`:
`tst = ((L + eot + 4*(lon - 15*tz)) % 1440 + 1440) % 1440`. -/
noncomputable def trueSolarTimeMin (localClockMinutes eotMin longitudeDeg tzOffsetHours : ℝ) : ℝ :=
  jsWrap (localClockMinutes + (eotMin + 4 * (longitudeDeg - 15 * tzOffsetHours))) 1440

/-- Hour angle in degrees: `H_deg = tst / 4 - 180`. -/
noncomputable def hourAngleDeg (localClockMinutes eotMin longitudeDeg tzOffsetHours : ℝ) : ℝ :=
  trueSolarTimeMin localClockMinutes eotMin longitudeDeg tzOffsetHours / 4 - 180

/-! ## HorizontalTransform (lines 175-186, identically lines 363-371) -/

structure HorizontalFields where
  E : ℝ
  N : ℝ
  U : ℝ
  altitudeDeg : ℝ
  azimuthDeg : ℝ

/-- The ENU / altitude / azimuth computation shared verbatim by
`computeAnalemmaPoints` and `computeAnalemmaInset`. -/
noncomputable def horizontalOf (phi decl H : ℝ) : HorizontalFields :=
  let E := Real.cos decl * Real.sin H
  let N := Real.cos phi * Real.sin decl - Real.sin phi * Real.cos decl * Real.cos H
  let U := Real.sin phi * Real.sin decl + Real.cos phi * Real.cos decl * Real.cos H
  { E := E
    N := N
    U := U
    altitudeDeg := rad2deg (Real.arcsin (max (-1) (min 1 U)))
    azimuthDeg := normalizeDeg (rad2deg (atan2 E N)) }

/-! ## Data model (TimeMode, inputs, point records) -/

/-- The source's `TimeMode` type:
`export type TimeMode = \x7b kind: "fixedLocalTime"; hh: number; mm: number \x7d`.
It has a single alternative. -/
inductive TimeMode where
  | fixedLocalTime (hh mm : ℝ)

def TimeMode.kind : TimeMode → String
  | .fixedLocalTime _ _ => "fixedLocalTime"

def TimeMode.hh : TimeMode → ℝ
  | .fixedLocalTime h _ => h

def TimeMode.mm : TimeMode → ℝ
  | .fixedLocalTime _ m => m

/-- `AnalemmaInputs`; the optional `year` (defaulting impurely to the
current year) is modelled as the resolved year value. -/
structure AnalemmaInputs where
  latitudeDeg : ℝ
  longitudeDeg : ℝ
  timeMode : TimeMode
  tzOffsetHours : ℝ
  year : ℤ

structure AnalemmaPoint where
  dateISO : String
  azimuthDeg : ℝ
  altitudeDeg : ℝ
  visible : Prop
  E : ℝ
  N : ℝ
  U : ℝ

structure EotPoint where
  dateISO : String
  dayOfYear : ℕ
  eotMinutes : ℝ
  obliquityComponent : ℝ
  eccentricityComponent : ℝ

structure AnalemmaInsetPoint where
  azimuthDeg : ℝ
  altitudeDeg : ℝ
  visible : Prop
  E : ℝ
  N : ℝ
  U : ℝ

/-! ## Series generators -/

/-- Body of the `computeAnalemmaPoints` day loop for day `n` (1-based).
The clock hour/minute clamping (`Math.min(23, Math.max(0, hh))`,
`Math.min(59, Math.max(0, mm))`) happens before the loop in the source
and is repeated here per day, which is equivalent. -/
noncomputable def analemmaPointAt (inp : AnalemmaInputs) (nDays n : ℕ) : AnalemmaPoint :=
  let phi := deg2rad inp.latitudeDeg
  let hh := min 23 (max 0 inp.timeMode.hh)
  let mm := min 59 (max 0 inp.timeMode.mm)
  let localClockMinutes := hh * 60 + mm
  let gamma := gammaOf (nDays : ℝ) (n : ℝ)
  let decl := declMain gamma
  let eotMin := eotMain gamma
  let H := deg2rad (hourAngleDeg localClockMinutes eotMin inp.longitudeDeg inp.tzOffsetHours)
  let hz := horizontalOf phi decl H
  { dateISO := dateFromDayOfYear inp.year (n : ℤ)
    azimuthDeg := hz.azimuthDeg
    altitudeDeg := hz.altitudeDeg
    visible := hz.altitudeDeg > 0
    E := hz.E
    N := hz.N
    U := hz.U }

/-- `computeAnalemmaPoints`: one point per day `n = 1 .. daysInYear year`. -/
noncomputable def computeAnalemmaPoints (inp : AnalemmaInputs) : List AnalemmaPoint :=
  (List.range (daysInYear inp.year).toNat).map
    (fun i => analemmaPointAt inp (daysInYear inp.year).toNat (i + 1))

/-- Body of the `computeEquationOfTime` day loop for day `n` (1-based). -/
noncomputable def eotPointAt (year : ℤ) (nDays n : ℕ) : EotPoint :=
  let gamma := gammaOf (nDays : ℝ) (n : ℝ)
  let obliquityComponent := obliquityComponentOf gamma
  let eccentricityComponent := eccentricityComponentOf gamma
  { dateISO := dateFromDayOfYear year (n : ℤ)
    dayOfYear := n
    eotMinutes := obliquityComponent + eccentricityComponent
    obliquityComponent := obliquityComponent
    eccentricityComponent := eccentricityComponent }

/-- `computeEquationOfTime`: one point per day `n = 1 .. daysInYear year`. -/
noncomputable def computeEquationOfTime (year : ℤ) : List EotPoint :=
  (List.range (daysInYear year).toNat).map
    (fun i => eotPointAt year (daysInYear year).toNat (i + 1))

/-- Body of the `computeAnalemmaInset` day loop for day `n` (1-based).
Note: unlike `computeAnalemmaPoints`, the source takes
`localClockMinutes = timeMode.hh * 60 + timeMode.mm` with no clamping. -/
noncomputable def insetPointAt (inp : AnalemmaInputs)
    (includeObliquity includeEccentricity : Bool) (nDays n : ℕ) : AnalemmaInsetPoint :=
  let phi := deg2rad inp.latitudeDeg
  let localClockMinutes := inp.timeMode.hh * 60 + inp.timeMode.mm
  let gamma := gammaOf (nDays : ℝ) (n : ℝ)
  let decl := if includeObliquity then declInsetSeries gamma else 0
  let eotMin := (if includeObliquity then obliqInsetSeries gamma else 0) +
    (if includeEccentricity then eccInsetSeries gamma else 0)
  let H := deg2rad (hourAngleDeg localClockMinutes eotMin inp.longitudeDeg inp.tzOffsetHours)
  let hz := horizontalOf phi decl H
  { azimuthDeg := hz.azimuthDeg
    altitudeDeg := hz.altitudeDeg
    visible := hz.altitudeDeg > 0
    E := hz.E
    N := hz.N
    U := hz.U }

/-- `computeAnalemmaInset`: one point per day `n = 1 .. daysInYear year`. -/
noncomputable def computeAnalemmaInset (inp : AnalemmaInputs)
    (includeObliquity includeEccentricity : Bool) : List AnalemmaInsetPoint :=
  (List.range (daysInYear inp.year).toNat).map
    (fun i => insetPointAt inp includeObliquity includeEccentricity
      (daysInYear inp.year).toNat (i + 1))

/-! ## AspectLockedScaler (src/enuScaling.ts) -/

structure EnuScaleParams where
  eMin : ℝ
  eMax : ℝ
  uMin : ℝ
  uMax : ℝ
  plotWidthPx : ℝ
  plotHeightPx : ℝ
  padFraction : ℝ
  minPadE : ℝ
  minPadU : ℝ
  minSpan : ℝ

/-- `computeEnuDomainsAspectLocked` from src/enuScaling.ts; the result is
`(eDomain, uDomain)` as pairs `(min, max)`. -/
noncomputable def computeEnuDomainsAspectLocked (p : EnuScaleParams) : (ℝ × ℝ) × (ℝ × ℝ) :=
  let safeWidth := max 1 p.plotWidthPx
  let safeHeight := max 1 p.plotHeightPx
  let eRange := max p.minSpan (p.eMax - p.eMin)
  let uRange := max p.minSpan (p.uMax - p.uMin)
  let ePad := max p.minPadE (eRange * p.padFraction)
  let uPad := max p.minPadU (uRange * p.padFraction)
  let eDomainMin := p.eMin - ePad
  let eDomainMax := p.eMax + ePad
  let uDomainMin := p.uMin - uPad
  let uDomainMax := p.uMax + uPad
  let eMid := (eDomainMin + eDomainMax) / 2
  let uMid := (uDomainMin + uDomainMax) / 2
  let eSpan := max p.minSpan (eDomainMax - eDomainMin)
  let uSpan := max p.minSpan (uDomainMax - uDomainMin)
  let uSpanForE := eSpan * (safeHeight / safeWidth)
  let eSpanForU := uSpan * (safeWidth / safeHeight)
  if uSpan < uSpanForE then
    ((eDomainMin, eDomainMax), (uMid - uSpanForE / 2, uMid + uSpanForE / 2))
  else if eSpan < eSpanForU then
    ((eMid - eSpanForU / 2, eMid + eSpanForU / 2), (uDomainMin, uDomainMax))
  else
    ((eDomainMin, eDomainMax), (uDomainMin, uDomainMax))

/-! ## Lemmas about the JS remainder and wrap idiom -/

theorem jsMod_of_nonneg {a b : ℝ} (hb : 0 < b) (ha : 0 ≤ a) :
    jsMod a b = a - b * ⌊a / b⌋ ∧ 0 ≤ jsMod a b ∧ jsMod a b < b := by
  have hq : (0 : ℝ) ≤ a / b := div_nonneg ha hb.le
  have htr : jsTrunc (a / b) = ⌊a / b⌋ := if_pos hq
  have heq : jsMod a b = a - b * ⌊a / b⌋ := by
    simp [jsMod, htr]
  refine ⟨heq, ?_, ?_⟩
  · rw [heq]
    have h1 : (⌊a / b⌋ : ℝ) ≤ a / b := Int.floor_le _
    have h2 : b * (⌊a / b⌋ : ℝ) ≤ b * (a / b) := by
      exact mul_le_mul_of_nonneg_left h1 hb.le
    have h3 : b * (a / b) = a := by field_simp
    linarith
  · rw [heq]
    have h1 : a / b < (⌊a / b⌋ : ℝ) + 1 := Int.lt_floor_add_one _
    have h2 : b * (a / b) < b * ((⌊a / b⌋ : ℝ) + 1) := by
      exact mul_lt_mul_of_pos_left h1 hb
    have h3 : b * (a / b) = a := by field_simp
    nlinarith

theorem jsMod_of_neg {a b : ℝ} (hb : 0 < b) (ha : a < 0) :
    jsMod a b = a - b * ⌈a / b⌉ ∧ -b < jsMod a b ∧ jsMod a b ≤ 0 := by
  have hq : ¬ (0 : ℝ) ≤ a / b := by
    simp only [not_le]
    exact div_neg_of_neg_of_pos ha hb
  have htr : jsTrunc (a / b) = ⌈a / b⌉ := if_neg hq
  have heq : jsMod a b = a - b * ⌈a / b⌉ := by
    simp [jsMod, htr]
  refine ⟨heq, ?_, ?_⟩
  · rw [heq]
    have h1 : (⌈a / b⌉ : ℝ) < a / b + 1 := Int.ceil_lt_add_one _
    have h2 : b * (⌈a / b⌉ : ℝ) < b * (a / b + 1) := mul_lt_mul_of_pos_left h1 hb
    have h3 : b * (a / b) = a := by field_simp
    nlinarith
  · rw [heq]
    have h1 : a / b ≤ (⌈a / b⌉ : ℝ) := Int.le_ceil _
    have h2 : b * (a / b) ≤ b * (⌈a / b⌉ : ℝ) := mul_le_mul_of_nonneg_left h1 hb.le
    have h3 : b * (a / b) = a := by field_simp
    linarith

/-- The wrap idiom computes the mathematical (floor) remainder: it lands in
`[0, b)` and differs from `a` by an integer multiple of `b`. -/
theorem jsWrap_spec {b : ℝ} (hb : 0 < b) (a : ℝ) :
    jsWrap a b = a - b * ⌊a / b⌋ ∧ 0 ≤ jsWrap a b ∧ jsWrap a b < b := by
  have hstep : ∃ k : ℤ, jsMod a b = a - b * k ∧ -b < jsMod a b ∧ jsMod a b < b := by
    rcases le_or_lt 0 a with ha | ha
    · obtain ⟨he, h0, h1⟩ := jsMod_of_nonneg hb ha
      exact ⟨⌊a / b⌋, he, by linarith, h1⟩
    · obtain ⟨he, h0, h1⟩ := jsMod_of_neg hb ha
      exact ⟨⌈a / b⌉, he, h0, by linarith⟩
  obtain ⟨k, hk, hk0, hk1⟩ := hstep
  have hx0 : (0 : ℝ) ≤ jsMod a b + b := by linarith
  obtain ⟨he2, h20, h21⟩ := jsMod_of_nonneg hb hx0
  have hw : jsWrap a b = a - b * (k - 1 + ⌊(jsMod a b + b) / b⌋) := by
    rw [jsWrap, he2, hk]
    ring
  set m : ℤ := k - 1 + ⌊(jsMod a b + b) / b⌋ with hm
  have hcast : ((m : ℤ) : ℝ) = (k : ℝ) - 1 + (⌊(jsMod a b + b) / b⌋ : ℝ) := by
    rw [hm]; push_cast; ring
  have hw' : jsWrap a b = a - b * (m : ℝ) := by rw [hw, ← hcast]
  have hw0 : 0 ≤ a - b * m := by rw [← hw']; exact h20
  have hw1 : a - b * m < b := by rw [← hw']; exact h21
  have hfl : ⌊a / b⌋ = m := by
    rw [Int.floor_eq_iff]
    constructor
    · rw [le_div_iff₀ hb]
      linarith
    · rw [div_lt_iff₀ hb]
      linarith
  rw [hw', hfl]
  exact ⟨rfl, hw0, hw1⟩

theorem jsWrap_nonneg {b : ℝ} (hb : 0 < b) (a : ℝ) : 0 ≤ jsWrap a b :=
  (jsWrap_spec hb a).2.1

theorem jsWrap_lt {b : ℝ} (hb : 0 < b) (a : ℝ) : jsWrap a b < b :=
  (jsWrap_spec hb a).2.2

theorem jsWrap_of_mem {a b : ℝ} (hb : 0 < b) (h0 : 0 ≤ a) (h1 : a < b) :
    jsWrap a b = a := by
  obtain ⟨he, -, -⟩ := jsWrap_spec hb a
  have : ⌊a / b⌋ = 0 := by
    rw [Int.floor_eq_zero_iff]
    constructor
    · exact div_nonneg h0 hb.le
    · rw [div_lt_one hb]
      exact h1
  rw [he, this]
  simp

theorem normalizeDeg_nonneg (d : ℝ) : 0 ≤ normalizeDeg d :=
  jsWrap_nonneg (by norm_num) d

theorem normalizeDeg_lt (d : ℝ) : normalizeDeg d < 360 :=
  jsWrap_lt (by norm_num) d

theorem normalizeDeg_of_mem {d : ℝ} (h0 : 0 ≤ d) (h1 : d < 360) : normalizeDeg d = d :=
  jsWrap_of_mem (by norm_num) h0 h1

/-- January 1 day numbers of consecutive years differ by exactly the day
count of the earlier year. -/
theorem epochDaysJan1_succ (y : ℤ) : epochDaysJan1 (y + 1) = epochDaysJan1 y + daysInYear y := by
  simp only [epochDaysJan1, daysInYear, isLeapYear, Bool.or_eq_true, Bool.and_eq_true,
    beq_iff_eq, bne_iff_ne, ne_eq]
  split <;> omega

/-! ## Lemmas about atan2 and the horizontal transform -/

theorem atan2_zero_of_neg {x : ℝ} (hx : x < 0) : atan2 0 x = Real.pi := by
  rw [atan2]
  simp only [Complex.ofReal_zero, zero_mul, add_zero]
  exact Complex.arg_ofReal_of_neg hx

theorem atan2_zero_of_nonneg {x : ℝ} (hx : 0 ≤ x) : atan2 0 x = 0 := by
  rw [atan2]
  simp only [Complex.ofReal_zero, zero_mul, add_zero]
  exact Complex.arg_ofReal_of_nonneg hx

theorem horizontalOf_E (phi decl H : ℝ) :
    (horizontalOf phi decl H).E = Real.cos decl * Real.sin H := by
  simp [horizontalOf]

theorem horizontalOf_N (phi decl H : ℝ) :
    (horizontalOf phi decl H).N =
      Real.cos phi * Real.sin decl - Real.sin phi * Real.cos decl * Real.cos H := by
  simp [horizontalOf]

theorem horizontalOf_U (phi decl H : ℝ) :
    (horizontalOf phi decl H).U =
      Real.sin phi * Real.sin decl + Real.cos phi * Real.cos decl * Real.cos H := by
  simp [horizontalOf]

theorem horizontalOf_alt (phi decl H : ℝ) :
    (horizontalOf phi decl H).altitudeDeg =
      rad2deg (Real.arcsin (max (-1) (min 1 (horizontalOf phi decl H).U))) := by
  simp [horizontalOf]

theorem horizontalOf_az (phi decl H : ℝ) :
    (horizontalOf phi decl H).azimuthDeg =
      normalizeDeg (rad2deg (atan2 (horizontalOf phi decl H).E (horizontalOf phi decl H).N)) := by
  simp [horizontalOf]

/-- The emitted ENU components form a unit vector (exactly, over ℝ). -/
theorem horizontalOf_unit (phi decl H : ℝ) :
    (horizontalOf phi decl H).E ^ 2 + (horizontalOf phi decl H).N ^ 2 +
      (horizontalOf phi decl H).U ^ 2 = 1 := by
  rw [horizontalOf_E, horizontalOf_N, horizontalOf_U]
  linear_combination
    ((Real.sin decl) ^ 2 + (Real.cos decl) ^ 2 * (Real.cos H) ^ 2) *
        (Real.sin_sq_add_cos_sq phi) +
      (Real.cos decl) ^ 2 * (Real.sin_sq_add_cos_sq H) +
      Real.sin_sq_add_cos_sq decl

theorem horizontalOf_alt_mem (phi decl H : ℝ) :
    -90 ≤ (horizontalOf phi decl H).altitudeDeg ∧ (horizontalOf phi decl H).altitudeDeg ≤ 90 := by
  rw [horizontalOf_alt]
  have h := Real.arcsin_mem_Icc (max (-1) (min 1 (horizontalOf phi decl H).U))
  obtain ⟨h1, h2⟩ := h
  have hπ : (0 : ℝ) < Real.pi := Real.pi_pos
  constructor
  · rw [rad2deg, le_div_iff₀ hπ]
    nlinarith
  · rw [rad2deg, div_le_iff₀ hπ]
    nlinarith

theorem horizontalOf_az_mem (phi decl H : ℝ) :
    0 ≤ (horizontalOf phi decl H).azimuthDeg ∧ (horizontalOf phi decl H).azimuthDeg < 360 := by
  rw [horizontalOf_az]
  exact ⟨normalizeDeg_nonneg _, normalizeDeg_lt _⟩

/-! ## Concrete declination bounds for the equator scenario (C1) -/

theorem gammaOf_366_1 : gammaOf 366 1 = Real.pi / 366 := by
  rw [gammaOf]; norm_num; ring

theorem gammaOf_366_183 : gammaOf 366 183 = Real.pi - Real.pi / 366 := by
  rw [gammaOf]; ring_nf

theorem cos_pi_div_366_ge : (0.9 : ℝ) ≤ Real.cos (Real.pi / 366) := by
  have hπ4 : Real.pi < 3.1416 := Real.pi_lt_d4
  have hx0 : (0 : ℝ) < Real.pi / 366 := by positivity
  have hx1 : Real.pi / 366 ≤ 0.0086 := by
    rw [div_le_iff₀ (by norm_num : (0:ℝ) < 366)]
    norm_num
    linarith
  nlinarith [Real.one_sub_sq_div_two_le_cos (x := Real.pi / 366)]

theorem declMain_day1_neg : declMain (gammaOf 366 1) < 0 := by
  rw [gammaOf_366_1, declMain]
  have h1 := cos_pi_div_366_ge
  have h2 := Real.sin_le_one (Real.pi / 366)
  have h3 := Real.sin_le_one (2 * (Real.pi / 366))
  have h4 := Real.sin_le_one (3 * (Real.pi / 366))
  have h5 := Real.neg_one_le_cos (2 * (Real.pi / 366))
  have h6 := Real.neg_one_le_cos (3 * (Real.pi / 366))
  linarith

theorem declMain_day1_gt_neg_pi : -Real.pi < declMain (gammaOf 366 1) := by
  rw [gammaOf_366_1, declMain]
  have hπ : (3 : ℝ) < Real.pi := Real.pi_gt_three
  have h1 := Real.cos_le_one (Real.pi / 366)
  have h2 := Real.neg_one_le_sin (Real.pi / 366)
  have h3 := Real.neg_one_le_sin (2 * (Real.pi / 366))
  have h4 := Real.neg_one_le_sin (3 * (Real.pi / 366))
  have h5 := Real.cos_le_one (2 * (Real.pi / 366))
  have h6 := Real.cos_le_one (3 * (Real.pi / 366))
  linarith

theorem declMain_day183_pos : 0 < declMain (gammaOf 366 183) := by
  rw [gammaOf_366_183, declMain]
  have h1 : Real.cos (Real.pi - Real.pi / 366) ≤ -0.9 := by
    rw [Real.cos_pi_sub]
    have := cos_pi_div_366_ge
    linarith
  have h2 := Real.neg_one_le_sin (Real.pi - Real.pi / 366)
  have h3 := Real.neg_one_le_sin (2 * (Real.pi - Real.pi / 366))
  have h4 := Real.neg_one_le_sin (3 * (Real.pi - Real.pi / 366))
  have h5 := Real.cos_le_one (2 * (Real.pi - Real.pi / 366))
  have h6 := Real.cos_le_one (3 * (Real.pi - Real.pi / 366))
  linarith

theorem declMain_day183_lt_pi : declMain (gammaOf 366 183) < Real.pi := by
  rw [gammaOf_366_183, declMain]
  have hπ : (3 : ℝ) < Real.pi := Real.pi_gt_three
  have h1 := Real.neg_one_le_cos (Real.pi - Real.pi / 366)
  have h2 := Real.sin_le_one (Real.pi - Real.pi / 366)
  have h3 := Real.sin_le_one (2 * (Real.pi - Real.pi / 366))
  have h4 := Real.sin_le_one (3 * (Real.pi - Real.pi / 366))
  have h5 := Real.neg_one_le_cos (2 * (Real.pi - Real.pi / 366))
  have h6 := Real.neg_one_le_cos (3 * (Real.pi - Real.pi / 366))
  linarith

/-- At hour angle 0 on the equator the transform's azimuth is exactly
180 degrees when the declination is negative (in `(-π, 0)`). -/
theorem azimuth_equator_noon_south {decl : ℝ} (h0 : decl < 0) (h1 : -Real.pi < decl) :
    (horizontalOf 0 decl 0).azimuthDeg = 180 := by
  have hsin : Real.sin decl < 0 := Real.sin_neg_of_neg_of_neg_pi_lt h0 h1
  have hE : (horizontalOf 0 decl 0).E = 0 := by
    rw [horizontalOf_E]; simp
  have hN : (horizontalOf 0 decl 0).N = Real.sin decl := by
    rw [horizontalOf_N]; simp
  rw [horizontalOf_az, hE, hN, atan2_zero_of_neg hsin]
  have hdeg : rad2deg Real.pi = 180 := by
    rw [rad2deg]
    field_simp
  rw [hdeg]
  exact normalizeDeg_of_mem (by norm_num) (by norm_num)

/-- At hour angle 0 on the equator the transform's azimuth is exactly
0 degrees when the declination is positive (in `(0, π)`). -/
theorem azimuth_equator_noon_north {decl : ℝ} (h0 : 0 < decl) (h1 : decl < Real.pi) :
    (horizontalOf 0 decl 0).azimuthDeg = 0 := by
  have hsin : 0 < Real.sin decl := Real.sin_pos_of_pos_of_lt_pi h0 h1
  have hE : (horizontalOf 0 decl 0).E = 0 := by
    rw [horizontalOf_E]; simp
  have hN : (horizontalOf 0 decl 0).N = Real.sin decl := by
    rw [horizontalOf_N]; simp
  rw [horizontalOf_az, hE, hN, atan2_zero_of_nonneg hsin.le]
  have hdeg : rad2deg 0 = 0 := by
    rw [rad2deg]; ring
  rw [hdeg]
  exact normalizeDeg_of_mem le_rfl (by norm_num)

/-! ## List shape of the generators -/

theorem computeAnalemmaPoints_length (inp : AnalemmaInputs) :
    (computeAnalemmaPoints inp).length = (daysInYear inp.year).toNat := by
  simp [computeAnalemmaPoints]

theorem computeEquationOfTime_length (year : ℤ) :
    (computeEquationOfTime year).length = (daysInYear year).toNat := by
  simp [computeEquationOfTime]

theorem computeAnalemmaInset_length (inp : AnalemmaInputs) (io ie : Bool) :
    (computeAnalemmaInset inp io ie).length = (daysInYear inp.year).toNat := by
  simp [computeAnalemmaInset]

theorem computeAnalemmaPoints_get (inp : AnalemmaInputs) (i : ℕ)
    (h : i < (computeAnalemmaPoints inp).length) :
    (computeAnalemmaPoints inp).get ⟨i, h⟩ =
      analemmaPointAt inp (daysInYear inp.year).toNat (i + 1) := by
  simp [computeAnalemmaPoints]

theorem computeEquationOfTime_get (year : ℤ) (i : ℕ)
    (h : i < (computeEquationOfTime year).length) :
    (computeEquationOfTime year).get ⟨i, h⟩ =
      eotPointAt year (daysInYear year).toNat (i + 1) := by
  simp [computeEquationOfTime]

theorem computeAnalemmaInset_get (inp : AnalemmaInputs) (io ie : Bool) (i : ℕ)
    (h : i < (computeAnalemmaInset inp io ie).length) :
    (computeAnalemmaInset inp io ie).get ⟨i, h⟩ =
      insetPointAt inp io ie (daysInYear inp.year).toNat (i + 1) := by
  simp [computeAnalemmaInset]

/-! ## Claim theorems -/

/-- C1: the horizontal transform computes `E = cos δ · sin H`,
`N = cos φ · sin δ − sin φ · cos δ · cos H`,
`U = sin φ · sin δ + cos φ · cos δ · cos H`, altitude as the arcsine of `U`
clamped to `[-1, 1]` converted to degrees, and azimuth as `atan2 (E, N)`
converted to degrees and normalized into `[0, 360)` (north-referenced,
clockwise); and for an equatorial observer at solar noon (hour angle 0),
on 2024-01-01 (day 1 of the 366-day year) the declination is negative and
the azimuth is exactly 180° (south), while on 2024-07-01 (day 183) the
declination is positive and the azimuth is exactly 0° (north). -/
theorem horizontal_transform_spec :
    (∀ phi decl H : ℝ,
      (horizontalOf phi decl H).E = Real.cos decl * Real.sin H ∧
      (horizontalOf phi decl H).N =
        Real.cos phi * Real.sin decl - Real.sin phi * Real.cos decl * Real.cos H ∧
      (horizontalOf phi decl H).U =
        Real.sin phi * Real.sin decl + Real.cos phi * Real.cos decl * Real.cos H ∧
      (horizontalOf phi decl H).altitudeDeg =
        rad2deg (Real.arcsin (max (-1) (min 1 (horizontalOf phi decl H).U))) ∧
      (horizontalOf phi decl H).azimuthDeg =
        normalizeDeg (rad2deg (atan2 (horizontalOf phi decl H).E (horizontalOf phi decl H).N)) ∧
      0 ≤ (horizontalOf phi decl H).azimuthDeg ∧ (horizontalOf phi decl H).azimuthDeg < 360) ∧
    (dateFromDayOfYear 2024 1 = "2024-01-01" ∧
      declMain (gammaOf 366 1) < 0 ∧
      (horizontalOf 0 (declMain (gammaOf 366 1)) 0).azimuthDeg = 180) ∧
    (dateFromDayOfYear 2024 183 = "2024-07-01" ∧
      0 < declMain (gammaOf 366 183) ∧
      (horizontalOf 0 (declMain (gammaOf 366 183)) 0).azimuthDeg = 0) := by
  refine ⟨fun phi decl H => ?_, ⟨by decide, declMain_day1_neg, ?_⟩,
    ⟨by decide, declMain_day183_pos, ?_⟩⟩
  · obtain ⟨hz0, hz1⟩ := horizontalOf_az_mem phi decl H
    exact ⟨horizontalOf_E phi decl H, horizontalOf_N phi decl H, horizontalOf_U phi decl H,
      horizontalOf_alt phi decl H, horizontalOf_az phi decl H, hz0, hz1⟩
  · exact azimuth_equator_noon_south declMain_day1_neg declMain_day1_gt_neg_pi
  · exact azimuth_equator_noon_north declMain_day183_pos declMain_day183_lt_pi

/-- C2: every `computeEquationOfTime` point carries the obliquity term
`229.18·(−0.032077 sin γ − 0.040849 sin 2γ)`, the eccentricity term
`229.18·(0.000075 + 0.001868 cos γ − 0.014615 cos 2γ)`, an `eotMinutes`
that is exactly their sum, and that sum is exactly the single-series
NOAA equation of time used by `computeAnalemmaPoints` for the same day. -/
theorem eot_decomposition_spec :
    ∀ (year : ℤ) (i : ℕ) (h : i < (computeEquationOfTime year).length),
      ((computeEquationOfTime year).get ⟨i, h⟩).obliquityComponent =
        229.18 * (-0.032077 * Real.sin (gammaOf ((daysInYear year).toNat : ℝ) ((i : ℝ) + 1)) -
          0.040849 * Real.sin (2 * gammaOf ((daysInYear year).toNat : ℝ) ((i : ℝ) + 1))) ∧
      ((computeEquationOfTime year).get ⟨i, h⟩).eccentricityComponent =
        229.18 * (0.000075 +
          0.001868 * Real.cos (gammaOf ((daysInYear year).toNat : ℝ) ((i : ℝ) + 1)) -
          0.014615 * Real.cos (2 * gammaOf ((daysInYear year).toNat : ℝ) ((i : ℝ) + 1))) ∧
      ((computeEquationOfTime year).get ⟨i, h⟩).eotMinutes =
        ((computeEquationOfTime year).get ⟨i, h⟩).obliquityComponent +
          ((computeEquationOfTime year).get ⟨i, h⟩).eccentricityComponent ∧
      ((computeEquationOfTime year).get ⟨i, h⟩).eotMinutes =
        eotMain (gammaOf ((daysInYear year).toNat : ℝ) ((i : ℝ) + 1)) ∧
      eotMain (gammaOf ((daysInYear year).toNat : ℝ) ((i : ℝ) + 1)) =
        229.18 * (0.000075 +
          0.001868 * Real.cos (gammaOf ((daysInYear year).toNat : ℝ) ((i : ℝ) + 1)) -
          0.032077 * Real.sin (gammaOf ((daysInYear year).toNat : ℝ) ((i : ℝ) + 1)) -
          0.014615 * Real.cos (2 * gammaOf ((daysInYear year).toNat : ℝ) ((i : ℝ) + 1)) -
          0.040849 * Real.sin (2 * gammaOf ((daysInYear year).toNat : ℝ) ((i : ℝ) + 1))) := by
  intro year i h
  rw [computeEquationOfTime_get]
  have hcast : ((i + 1 : ℕ) : ℝ) = (i : ℝ) + 1 := by push_cast; ring
  refine ⟨?_, ?_, ?_, ?_, ?_⟩
  · simp only [eotPointAt, hcast]
    rw [obliquityComponentOf]
  · simp only [eotPointAt, hcast]
    rw [eccentricityComponentOf]
  · simp only [eotPointAt]
  · simp only [eotPointAt, hcast]
    rw [obliquityComponentOf, eccentricityComponentOf, eotMain]; ring
  · rw [eotMain]

theorem eot_decomposition_spec_witness :
    0 < (computeEquationOfTime 2024).length ∧
    ((computeEquationOfTime 2024).get
        ⟨0, by rw [computeEquationOfTime_length]; decide⟩).eotMinutes =
      eotMain (gammaOf ((daysInYear 2024).toNat : ℝ) (((0 : ℕ) : ℝ) + 1)) := by
  have hl : 0 < (computeEquationOfTime 2024).length := by
    rw [computeEquationOfTime_length]; decide
  exact ⟨hl, (eot_decomposition_spec 2024 0 hl).2.2.2.1⟩

/-- C3: the orbital angle is `γ = (2π/N)·(n − 1 + 0.5)` and the solar
declination is the fixed 7-term series with exactly the literal
coefficients, in the main generator and (via its own inline copy of the
series) in the component-filtered generator. -/
theorem declination_series_spec :
    (∀ nDays n : ℝ, gammaOf nDays n = 2 * Real.pi / nDays * (n - 1 + 0.5)) ∧
    (∀ g : ℝ, declMain g =
      0.006918 - 0.399912 * Real.cos g + 0.070257 * Real.sin g -
        0.006758 * Real.cos (2 * g) + 0.000907 * Real.sin (2 * g) -
        0.002697 * Real.cos (3 * g) + 0.00148 * Real.sin (3 * g)) ∧
    (∀ g : ℝ, declInsetSeries g = declMain g) := by
  exact ⟨fun nDays n => rfl, fun g => rfl, fun g => rfl⟩

/-- C4: the resolved hour angle is `tst/4 − 180` where `tst` is the true
solar time `(localClockMinutes + eot + 4·(longitude − 15·tz))` reduced
modulo 1440 into `[0, 1440)`; hence `tst = 720` gives hour angle 0 and the
hour angle always lies in `[-180, 180)`. -/
theorem hour_angle_spec :
    ∀ L eot lon tz : ℝ,
      trueSolarTimeMin L eot lon tz =
        (L + eot + 4 * (lon - 15 * tz)) -
          1440 * ⌊(L + eot + 4 * (lon - 15 * tz)) / 1440⌋ ∧
      0 ≤ trueSolarTimeMin L eot lon tz ∧
      trueSolarTimeMin L eot lon tz < 1440 ∧
      hourAngleDeg L eot lon tz = trueSolarTimeMin L eot lon tz / 4 - 180 ∧
      -180 ≤ hourAngleDeg L eot lon tz ∧
      hourAngleDeg L eot lon tz < 180 ∧
      (trueSolarTimeMin L eot lon tz = 720 → hourAngleDeg L eot lon tz = 0) := by
  intro L eot lon tz
  have harg : L + (eot + 4 * (lon - 15 * tz)) = L + eot + 4 * (lon - 15 * tz) := by ring
  have hs := jsWrap_spec (b := 1440) (by norm_num) (L + eot + 4 * (lon - 15 * tz))
  have h1 : trueSolarTimeMin L eot lon tz =
      (L + eot + 4 * (lon - 15 * tz)) - 1440 * ⌊(L + eot + 4 * (lon - 15 * tz)) / 1440⌋ := by
    rw [trueSolarTimeMin, harg, hs.1]
  have h2 : 0 ≤ trueSolarTimeMin L eot lon tz := by
    rw [trueSolarTimeMin, harg]; exact hs.2.1
  have h3 : trueSolarTimeMin L eot lon tz < 1440 := by
    rw [trueSolarTimeMin, harg]; exact hs.2.2
  refine ⟨h1, h2, h3, rfl, ?_, ?_, ?_⟩
  · rw [hourAngleDeg]; linarith
  · rw [hourAngleDeg]; linarith
  · intro h720
    rw [hourAngleDeg, h720]; norm_num

theorem hour_angle_spec_witness :
    trueSolarTimeMin 720 0 0 0 = 720 ∧ hourAngleDeg 720 0 0 0 = 0 := by
  have h := hour_angle_spec 720 0 0 0
  have hfl : ⌊(720 + 0 + 4 * (0 - 15 * 0) : ℝ) / 1440⌋ = 0 := by
    rw [Int.floor_eq_zero_iff]
    constructor <;> norm_num
  have h720 : trueSolarTimeMin 720 0 0 0 = 720 := by
    rw [h.1, hfl]; norm_num
  exact ⟨h720, h.2.2.2.2.2.2 h720⟩

/-- C5: both series have exactly `daysInYear year` points (366 under the
Gregorian leap rule, else 365), indexed in strictly ascending day order
with no gaps; the `n`-th point's `dateISO` comes from `dateFromDayOfYear`
(January 1 plus `n - 1` days, UTC civil arithmetic), and the `n`-th
`EotPoint.dayOfYear` is `n`. -/
theorem series_shape_spec :
    ∀ inp : AnalemmaInputs,
      (computeAnalemmaPoints inp).length = (daysInYear inp.year).toNat ∧
      (computeEquationOfTime inp.year).length = (daysInYear inp.year).toNat ∧
      daysInYear inp.year =
        (if (inp.year % 4 = 0 ∧ inp.year % 100 ≠ 0) ∨ inp.year % 400 = 0 then 366 else 365) ∧
      (∀ (i : ℕ) (h : i < (computeAnalemmaPoints inp).length),
        ((computeAnalemmaPoints inp).get ⟨i, h⟩).dateISO =
          dateFromDayOfYear inp.year ((i : ℤ) + 1)) ∧
      (∀ (i : ℕ) (h : i < (computeEquationOfTime inp.year).length),
        ((computeEquationOfTime inp.year).get ⟨i, h⟩).dayOfYear = i + 1 ∧
        ((computeEquationOfTime inp.year).get ⟨i, h⟩).dateISO =
          dateFromDayOfYear inp.year ((i : ℤ) + 1)) ∧
      (∀ (i j : ℕ) (hi : i < (computeEquationOfTime inp.year).length)
          (hj : j < (computeEquationOfTime inp.year).length),
        i < j →
          ((computeEquationOfTime inp.year).get ⟨i, hi⟩).dayOfYear <
            ((computeEquationOfTime inp.year).get ⟨j, hj⟩).dayOfYear) ∧
      dateFromDayOfYear 2024 60 = "2024-02-29" ∧
      dateFromDayOfYear 2023 60 = "2023-03-01" ∧
      dateFromDayOfYear 2024 366 = "2024-12-31" := by
  intro inp
  refine ⟨computeAnalemmaPoints_length inp, computeEquationOfTime_length inp.year, ?_,
    ?_, ?_, ?_, by decide, by decide, by decide⟩
  · have hiff : isLeapYear inp.year = true ↔
        ((inp.year % 4 = 0 ∧ inp.year % 100 ≠ 0) ∨ inp.year % 400 = 0) := by
      simp [isLeapYear]
    by_cases hb : (inp.year % 4 = 0 ∧ inp.year % 100 ≠ 0) ∨ inp.year % 400 = 0
    · rw [daysInYear, if_pos (hiff.mpr hb), if_pos hb]
    · rw [daysInYear, if_neg (fun hc => hb (hiff.mp hc)), if_neg hb]
  · intro i h
    rw [computeAnalemmaPoints_get]
    simp only [analemmaPointAt]
    push_cast
    ring_nf
  · intro i h
    rw [computeEquationOfTime_get]
    constructor
    · simp [eotPointAt]
    · simp only [eotPointAt]
      push_cast
      ring_nf
  · intro i j hi hj hij
    rw [computeEquationOfTime_get, computeEquationOfTime_get]
    simp only [eotPointAt]
    omega

theorem series_shape_spec_witness :
    0 < (computeAnalemmaPoints ⟨0, 0, .fixedLocalTime 12 0, 0, 2024⟩).length ∧
    ((computeAnalemmaPoints ⟨0, 0, .fixedLocalTime 12 0, 0, 2024⟩).get
        ⟨0, by rw [computeAnalemmaPoints_length]; decide⟩).dateISO =
      dateFromDayOfYear 2024 ((0 : ℤ) + 1) := by
  have hl : 0 < (computeAnalemmaPoints ⟨0, 0, .fixedLocalTime 12 0, 0, 2024⟩).length := by
    rw [computeAnalemmaPoints_length]; decide
  exact ⟨hl, (series_shape_spec ⟨0, 0, .fixedLocalTime 12 0, 0, 2024⟩).2.2.2.1 0 hl⟩

/-- Per-day invariants of the main generator's points. -/
theorem analemmaPointAt_invariants (inp : AnalemmaInputs) (nDays n : ℕ) :
    |(analemmaPointAt inp nDays n).E ^ 2 + (analemmaPointAt inp nDays n).N ^ 2 +
        (analemmaPointAt inp nDays n).U ^ 2 - 1| ≤ 1 / 1000000000 ∧
    -90 ≤ (analemmaPointAt inp nDays n).altitudeDeg ∧
    (analemmaPointAt inp nDays n).altitudeDeg ≤ 90 ∧
    0 ≤ (analemmaPointAt inp nDays n).azimuthDeg ∧
    (analemmaPointAt inp nDays n).azimuthDeg < 360 ∧
    ((analemmaPointAt inp nDays n).visible ↔ 0 < (analemmaPointAt inp nDays n).altitudeDeg) := by
  simp only [analemmaPointAt]
  refine ⟨?_, (horizontalOf_alt_mem _ _ _).1, (horizontalOf_alt_mem _ _ _).2,
    (horizontalOf_az_mem _ _ _).1, (horizontalOf_az_mem _ _ _).2, trivial⟩
  rw [horizontalOf_unit]
  norm_num

/-- Per-day invariants of the component-filtered generator's points. -/
theorem insetPointAt_invariants (inp : AnalemmaInputs) (io ie : Bool) (nDays n : ℕ) :
    |(insetPointAt inp io ie nDays n).E ^ 2 + (insetPointAt inp io ie nDays n).N ^ 2 +
        (insetPointAt inp io ie nDays n).U ^ 2 - 1| ≤ 1 / 1000000000 ∧
    -90 ≤ (insetPointAt inp io ie nDays n).altitudeDeg ∧
    (insetPointAt inp io ie nDays n).altitudeDeg ≤ 90 ∧
    0 ≤ (insetPointAt inp io ie nDays n).azimuthDeg ∧
    (insetPointAt inp io ie nDays n).azimuthDeg < 360 ∧
    ((insetPointAt inp io ie nDays n).visible ↔
      0 < (insetPointAt inp io ie nDays n).altitudeDeg) := by
  simp only [insetPointAt]
  refine ⟨?_, (horizontalOf_alt_mem _ _ _).1, (horizontalOf_alt_mem _ _ _).2,
    (horizontalOf_az_mem _ _ _).1, (horizontalOf_az_mem _ _ _).2, trivial⟩
  rw [horizontalOf_unit]
  norm_num

/-- C6: every point of both generators has ENU components forming a unit
vector (within 1e-9; exactly 1 over ℝ), altitude in `[-90, 90]`, azimuth
in `[0, 360)`, and `visible` exactly when altitude is positive. -/
theorem point_invariants_spec :
    ∀ (inp : AnalemmaInputs) (io ie : Bool),
      (∀ (i : ℕ) (h : i < (computeAnalemmaPoints inp).length),
        |((computeAnalemmaPoints inp).get ⟨i, h⟩).E ^ 2 +
            ((computeAnalemmaPoints inp).get ⟨i, h⟩).N ^ 2 +
            ((computeAnalemmaPoints inp).get ⟨i, h⟩).U ^ 2 - 1| ≤ 1 / 1000000000 ∧
        -90 ≤ ((computeAnalemmaPoints inp).get ⟨i, h⟩).altitudeDeg ∧
        ((computeAnalemmaPoints inp).get ⟨i, h⟩).altitudeDeg ≤ 90 ∧
        0 ≤ ((computeAnalemmaPoints inp).get ⟨i, h⟩).azimuthDeg ∧
        ((computeAnalemmaPoints inp).get ⟨i, h⟩).azimuthDeg < 360 ∧
        (((computeAnalemmaPoints inp).get ⟨i, h⟩).visible ↔
          0 < ((computeAnalemmaPoints inp).get ⟨i, h⟩).altitudeDeg)) ∧
      (∀ (i : ℕ) (h : i < (computeAnalemmaInset inp io ie).length),
        |((computeAnalemmaInset inp io ie).get ⟨i, h⟩).E ^ 2 +
            ((computeAnalemmaInset inp io ie).get ⟨i, h⟩).N ^ 2 +
            ((computeAnalemmaInset inp io ie).get ⟨i, h⟩).U ^ 2 - 1| ≤ 1 / 1000000000 ∧
        -90 ≤ ((computeAnalemmaInset inp io ie).get ⟨i, h⟩).altitudeDeg ∧
        ((computeAnalemmaInset inp io ie).get ⟨i, h⟩).altitudeDeg ≤ 90 ∧
        0 ≤ ((computeAnalemmaInset inp io ie).get ⟨i, h⟩).azimuthDeg ∧
        ((computeAnalemmaInset inp io ie).get ⟨i, h⟩).azimuthDeg < 360 ∧
        (((computeAnalemmaInset inp io ie).get ⟨i, h⟩).visible ↔
          0 < ((computeAnalemmaInset inp io ie).get ⟨i, h⟩).altitudeDeg)) := by
  intro inp io ie
  constructor
  · intro i h
    rw [computeAnalemmaPoints_get]
    exact analemmaPointAt_invariants inp (daysInYear inp.year).toNat (i + 1)
  · intro i h
    rw [computeAnalemmaInset_get]
    exact insetPointAt_invariants inp io ie (daysInYear inp.year).toNat (i + 1)

theorem point_invariants_spec_witness :
    0 < (computeAnalemmaPoints ⟨0, 0, .fixedLocalTime 12 0, 0, 2024⟩).length ∧
    0 ≤ ((computeAnalemmaPoints ⟨0, 0, .fixedLocalTime 12 0, 0, 2024⟩).get
        ⟨0, by rw [computeAnalemmaPoints_length]; decide⟩).azimuthDeg := by
  have hl : 0 < (computeAnalemmaPoints ⟨0, 0, .fixedLocalTime 12 0, 0, 2024⟩).length := by
    rw [computeAnalemmaPoints_length]; decide
  exact ⟨hl,
    ((point_invariants_spec ⟨0, 0, .fixedLocalTime 12 0, 0, 2024⟩ true true).1 0 hl).2.2.2.1⟩

/-! ## AspectLockedScaler theorems (C7) -/

/-- Padding applied to the E axis (mirrors the `ePad` computation). -/
noncomputable def ePadOf (p : EnuScaleParams) : ℝ :=
  max p.minPadE (max p.minSpan (p.eMax - p.eMin) * p.padFraction)

/-- Padding applied to the U axis (mirrors the `uPad` computation). -/
noncomputable def uPadOf (p : EnuScaleParams) : ℝ :=
  max p.minPadU (max p.minSpan (p.uMax - p.uMin) * p.padFraction)

/-- Width of the padded E domain before aspect locking. -/
noncomputable def eWidthOf (p : EnuScaleParams) : ℝ :=
  (p.eMax + ePadOf p) - (p.eMin - ePadOf p)

/-- Width of the padded U domain before aspect locking. -/
noncomputable def uWidthOf (p : EnuScaleParams) : ℝ :=
  (p.uMax + uPadOf p) - (p.uMin - uPadOf p)

/-- C7 counterexample: with `eMin = eMax = 0`, `uMin = 0`, `uMax = 1`, a
100×100 plot, zero paddings and `minSpan = 1`, the degenerate E domain is
floored to span 1 only inside the comparison, no branch expands it, and
the returned domains have units-per-pixel 0 (E) versus 1/100 (U). -/
theorem aspect_lock_cex :
    ¬ (((computeEnuDomainsAspectLocked ⟨0, 0, 0, 1, 100, 100, 0, 0, 0, 1⟩).1.2 -
          (computeEnuDomainsAspectLocked ⟨0, 0, 0, 1, 100, 100, 0, 0, 0, 1⟩).1.1) /
        max 1 (100 : ℝ) =
      ((computeEnuDomainsAspectLocked ⟨0, 0, 0, 1, 100, 100, 0, 0, 0, 1⟩).2.2 -
          (computeEnuDomainsAspectLocked ⟨0, 0, 0, 1, 100, 100, 0, 0, 0, 1⟩).2.1) /
        max 1 (100 : ℝ)) := by
  have hres : computeEnuDomainsAspectLocked ⟨0, 0, 0, 1, 100, 100, 0, 0, 0, 1⟩ =
      ((0, 0), (0, 1)) := by
    simp only [computeEnuDomainsAspectLocked]
    norm_num [max_def]
  rw [hres]
  norm_num

/-- C7 (amended): provided each axis's padded span is at least `minSpan`
(so that the flooring inside the span comparison changes nothing), the
returned domains give equal units-per-pixel on the two axes; only the
axis whose padded span is smaller than the other axis's aspect demand is
expanded symmetrically about its midpoint, and the other axis's padded
domain is returned unchanged. Without that proviso the guarantee fails
(see the counterexample). -/
theorem aspect_lock_spec (p : EnuScaleParams)
    (he : p.minSpan ≤ eWidthOf p) (hu : p.minSpan ≤ uWidthOf p) :
    (((computeEnuDomainsAspectLocked p).1.2 - (computeEnuDomainsAspectLocked p).1.1) /
        max 1 p.plotWidthPx =
      ((computeEnuDomainsAspectLocked p).2.2 - (computeEnuDomainsAspectLocked p).2.1) /
        max 1 p.plotHeightPx) ∧
    (uWidthOf p < eWidthOf p * (max 1 p.plotHeightPx / max 1 p.plotWidthPx) →
      (computeEnuDomainsAspectLocked p).1 = (p.eMin - ePadOf p, p.eMax + ePadOf p) ∧
      (computeEnuDomainsAspectLocked p).2 =
        ((p.uMin - uPadOf p + (p.uMax + uPadOf p)) / 2 -
            eWidthOf p * (max 1 p.plotHeightPx / max 1 p.plotWidthPx) / 2,
          (p.uMin - uPadOf p + (p.uMax + uPadOf p)) / 2 +
            eWidthOf p * (max 1 p.plotHeightPx / max 1 p.plotWidthPx) / 2)) ∧
    (eWidthOf p < uWidthOf p * (max 1 p.plotWidthPx / max 1 p.plotHeightPx) →
      (computeEnuDomainsAspectLocked p).2 = (p.uMin - uPadOf p, p.uMax + uPadOf p) ∧
      (computeEnuDomainsAspectLocked p).1 =
        ((p.eMin - ePadOf p + (p.eMax + ePadOf p)) / 2 -
            uWidthOf p * (max 1 p.plotWidthPx / max 1 p.plotHeightPx) / 2,
          (p.eMin - ePadOf p + (p.eMax + ePadOf p)) / 2 +
            uWidthOf p * (max 1 p.plotWidthPx / max 1 p.plotHeightPx) / 2)) ∧
    (¬ uWidthOf p < eWidthOf p * (max 1 p.plotHeightPx / max 1 p.plotWidthPx) →
      ¬ eWidthOf p < uWidthOf p * (max 1 p.plotWidthPx / max 1 p.plotHeightPx) →
      (computeEnuDomainsAspectLocked p).1 = (p.eMin - ePadOf p, p.eMax + ePadOf p) ∧
      (computeEnuDomainsAspectLocked p).2 = (p.uMin - uPadOf p, p.uMax + uPadOf p)) := by
  have hw : (0 : ℝ) < max 1 p.plotWidthPx := lt_of_lt_of_le zero_lt_one (le_max_left 1 _)
  have hh : (0 : ℝ) < max 1 p.plotHeightPx := lt_of_lt_of_le zero_lt_one (le_max_left 1 _)
  rw [eWidthOf, ePadOf] at he
  rw [uWidthOf, uPadOf] at hu
  simp only [computeEnuDomainsAspectLocked, eWidthOf, uWidthOf, ePadOf, uPadOf,
    max_eq_right he, max_eq_right hu]
  set eW : ℝ := p.eMax + max p.minPadE (max p.minSpan (p.eMax - p.eMin) * p.padFraction) -
    (p.eMin - max p.minPadE (max p.minSpan (p.eMax - p.eMin) * p.padFraction)) with heW
  set uW : ℝ := p.uMax + max p.minPadU (max p.minSpan (p.uMax - p.uMin) * p.padFraction) -
    (p.uMin - max p.minPadU (max p.minSpan (p.uMax - p.uMin) * p.padFraction)) with huW
  set w : ℝ := max 1 p.plotWidthPx with hwdef
  set h : ℝ := max 1 p.plotHeightPx with hhdef
  split_ifs with h1 h2
  · refine ⟨?_, fun _ => ⟨rfl, ?_⟩, fun hc => ?_, fun hn _ => absurd h1 hn⟩
    · dsimp only
      rw [div_eq_div_iff hw.ne' hh.ne']
      field_simp
      ring
    · rfl
    · exfalso
      have hc1 : uW * w < eW * h := by
        calc uW * w < eW * (h / w) * w := mul_lt_mul_of_pos_right h1 hw
          _ = eW * h := by field_simp
      have hc2 : eW * h < uW * w := by
        calc eW * h < uW * (w / h) * h := mul_lt_mul_of_pos_right hc hh
          _ = uW * w := by field_simp
      linarith
  · refine ⟨?_, fun hc => absurd hc h1, fun _ => ⟨rfl, ?_⟩, fun _ hn => absurd h2 hn⟩
    · dsimp only
      rw [div_eq_div_iff hw.ne' hh.ne']
      field_simp
      ring
    · rfl
  · have hge1 : eW * (h / w) ≤ uW := not_lt.mp h1
    have hge2 : uW * (w / h) ≤ eW := not_lt.mp h2
    have heq : eW * h = uW * w := by
      have hle1 : eW * h ≤ uW * w := by
        calc eW * h = eW * (h / w) * w := by field_simp
          _ ≤ uW * w := mul_le_mul_of_nonneg_right hge1 hw.le
      have hle2 : uW * w ≤ eW * h := by
        calc uW * w = uW * (w / h) * h := by field_simp
          _ ≤ eW * h := mul_le_mul_of_nonneg_right hge2 hh.le
      linarith
    refine ⟨?_, fun hc => absurd hc h1, fun hc => absurd hc h2, fun _ _ => ⟨rfl, rfl⟩⟩
    dsimp only
    rw [div_eq_div_iff hw.ne' hh.ne']
    exact heq

theorem aspect_lock_spec_witness :
    ((⟨-1, 1, 0, 1, 200, 100, 0, 0, 0, 0⟩ : EnuScaleParams).minSpan ≤
        eWidthOf ⟨-1, 1, 0, 1, 200, 100, 0, 0, 0, 0⟩ ∧
      (⟨-1, 1, 0, 1, 200, 100, 0, 0, 0, 0⟩ : EnuScaleParams).minSpan ≤
        uWidthOf ⟨-1, 1, 0, 1, 200, 100, 0, 0, 0, 0⟩) ∧
    ((computeEnuDomainsAspectLocked ⟨-1, 1, 0, 1, 200, 100, 0, 0, 0, 0⟩).1.2 -
        (computeEnuDomainsAspectLocked ⟨-1, 1, 0, 1, 200, 100, 0, 0, 0, 0⟩).1.1) /
      max 1 (200 : ℝ) =
    ((computeEnuDomainsAspectLocked ⟨-1, 1, 0, 1, 200, 100, 0, 0, 0, 0⟩).2.2 -
        (computeEnuDomainsAspectLocked ⟨-1, 1, 0, 1, 200, 100, 0, 0, 0, 0⟩).2.1) /
      max 1 (100 : ℝ) := by
  have he : (⟨-1, 1, 0, 1, 200, 100, 0, 0, 0, 0⟩ : EnuScaleParams).minSpan ≤
      eWidthOf ⟨-1, 1, 0, 1, 200, 100, 0, 0, 0, 0⟩ := by
    norm_num [eWidthOf, ePadOf, max_def]
  have hu : (⟨-1, 1, 0, 1, 200, 100, 0, 0, 0, 0⟩ : EnuScaleParams).minSpan ≤
      uWidthOf ⟨-1, 1, 0, 1, 200, 100, 0, 0, 0, 0⟩ := by
    norm_num [uWidthOf, uPadOf, max_def]
  exact ⟨⟨he, hu⟩, (aspect_lock_spec ⟨-1, 1, 0, 1, 200, 100, 0, 0, 0, 0⟩ he hu).1⟩

/-! ## Clock-time clamping (C8) -/

/-- C8 (amended): the main series generator clamps the clock hour to
`[0, 23]` and minute to `[0, 59]` before use, so its output on any hour
and minute equals its output on the clamped values, and no input is
rejected; the component-filtered generator, however, uses the raw hour
and minute with no clamping (see the counterexample). -/
theorem clock_clamp_spec :
    ∀ (lat lon tz : ℝ) (year : ℤ) (hh mm : ℝ),
      computeAnalemmaPoints ⟨lat, lon, .fixedLocalTime hh mm, tz, year⟩ =
        computeAnalemmaPoints
          ⟨lat, lon, .fixedLocalTime (min 23 (max 0 hh)) (min 59 (max 0 mm)), tz, year⟩ := by
  intro lat lon tz year hh mm
  have hh1 : min (23 : ℝ) (max 0 (min 23 (max 0 hh))) = min 23 (max 0 hh) := by
    have h0 : (0 : ℝ) ≤ min 23 (max 0 hh) := le_min (by norm_num) (le_max_left 0 hh)
    rw [max_eq_right h0]
    exact min_eq_right (min_le_left 23 (max 0 hh))
  have mm1 : min (59 : ℝ) (max 0 (min 59 (max 0 mm))) = min 59 (max 0 mm) := by
    have h0 : (0 : ℝ) ≤ min 59 (max 0 mm) := le_min (by norm_num) (le_max_left 0 mm)
    rw [max_eq_right h0]
    exact min_eq_right (min_le_left 59 (max 0 mm))
  simp only [computeAnalemmaPoints, analemmaPointAt, TimeMode.hh, TimeMode.mm, hh1, mm1]

/-- C8 counterexample: `computeAnalemmaInset` does not clamp: with hour 24
(clamping to hour 23) the inset series differs from the clamped one. -/
theorem inset_unclamped_cex :
    computeAnalemmaInset ⟨0, 0, .fixedLocalTime 24 0, 0, 2024⟩ false false ≠
      computeAnalemmaInset ⟨0, 0, .fixedLocalTime 23 0, 0, 2024⟩ false false := by
  intro hEq
  have hN : (daysInYear 2024).toNat = 366 := by decide
  have h0 := congrArg (fun l => l[0]?) hEq
  simp only [computeAnalemmaInset, List.getElem?_map, List.getElem?_range, hN] at h0
  norm_num at h0
  have hE := congrArg AnalemmaInsetPoint.E h0
  simp only [insetPointAt, TimeMode.hh, TimeMode.mm, Bool.false_eq_true, if_false] at hE
  rw [horizontalOf_E, horizontalOf_E] at hE
  have htst1 : trueSolarTimeMin ((24 : ℝ) * 60 + 0) (0 + 0) 0 0 = 0 := by
    rw [trueSolarTimeMin]
    have harg : ((24 : ℝ) * 60 + 0) + ((0 + 0) + 4 * (0 - 15 * 0)) = 1440 := by norm_num
    rw [harg]
    have hs := jsWrap_spec (b := 1440) (by norm_num) 1440
    have hfl : ⌊(1440 : ℝ) / 1440⌋ = 1 := by norm_num
    rw [hs.1, hfl]
    norm_num
  have htst2 : trueSolarTimeMin ((23 : ℝ) * 60 + 0) (0 + 0) 0 0 = 1380 := by
    rw [trueSolarTimeMin]
    have harg : ((23 : ℝ) * 60 + 0) + ((0 + 0) + 4 * (0 - 15 * 0)) = 1380 := by norm_num
    rw [harg]
    exact jsWrap_of_mem (by norm_num) (by norm_num) (by norm_num)
  have hH1 : deg2rad (hourAngleDeg ((24 : ℝ) * 60 + 0) (0 + 0) 0 0) = -Real.pi := by
    rw [hourAngleDeg, htst1, deg2rad]
    ring
  have hH2 : deg2rad (hourAngleDeg ((23 : ℝ) * 60 + 0) (0 + 0) 0 0) =
      165 * Real.pi / 180 := by
    rw [hourAngleDeg, htst2, deg2rad]
    ring
  rw [hH1, hH2] at hE
  have hsin2 : 0 < Real.sin (165 * Real.pi / 180) := by
    apply Real.sin_pos_of_pos_of_lt_pi
    · positivity
    · nlinarith [Real.pi_pos]
  rw [Real.sin_neg, Real.sin_pi] at hE
  rw [Real.cos_zero] at hE
  norm_num at hE
  linarith [hE ▸ hsin2]

/-! ## TimeMode shape (C9) -/

/-- C9 counterexample: the source's `TimeMode` has no `solarNoon`
alternative at all — every value is of kind `fixedLocalTime`. -/
theorem timeMode_solarNoon_cex : ¬ ∃ tm : TimeMode, tm.kind = "solarNoon" := by
  rintro ⟨tm, hk⟩
  cases tm
  simp only [TimeMode.kind] at hk
  exact absurd hk (by decide)

/-- C9 (amended): `TimeMode` is a tagged variant with exactly one
alternative, `fixedLocalTime (hh, mm)`; solar-noon series are obtained by
passing hour 12, minute 0 explicitly, and with the equation of time zero
and the longitude on the time-zone meridian the resolved hour angle is
then exactly 0, so the series is well formed. -/
theorem timeMode_single_variant_spec :
    (∀ tm : TimeMode, tm.kind = "fixedLocalTime" ∧ tm = .fixedLocalTime tm.hh tm.mm) ∧
    (∀ tz : ℝ, hourAngleDeg (12 * 60 + 0) 0 (15 * tz) tz = 0) := by
  constructor
  · intro tm
    cases tm
    exact ⟨rfl, rfl⟩
  · intro tz
    rw [hourAngleDeg, trueSolarTimeMin]
    have harg : (12 * 60 + 0 : ℝ) + (0 + 4 * (15 * tz - 15 * tz)) = 720 := by ring
    rw [harg, jsWrap_of_mem (by norm_num) (by norm_num) (by norm_num)]
    norm_num

/-! ## dateFromDayOfYear out-of-range behavior (C10) -/

/-- C10 counterexample: an out-of-range day is not rejected:
day 0 of 2023 yields the well-formed calendar date 2022-12-31. -/
theorem dateFromDayOfYear_day0_cex : dateFromDayOfYear 2023 0 = "2022-12-31" := by
  decide

/-- C10 (amended): `dateFromDayOfYear` never fails: an out-of-range day
rolls over into the adjacent year by plain day arithmetic — day 0 is the
last day of the previous year and day `daysInYear year + 1` is January 1
of the next year (for years above the legacy two-digit aliasing range). -/
theorem dateFromDayOfYear_rollover_spec :
    ∀ year : ℤ, 101 ≤ year →
      dateFromDayOfYear year 0 = dateFromDayOfYear (year - 1) (daysInYear (year - 1)) ∧
      dateFromDayOfYear year (daysInYear year + 1) = dateFromDayOfYear (year + 1) 1 := by
  intro year hy
  have hu0 : jsUtcYear year = year := by rw [jsUtcYear, if_neg]; omega
  have hu1 : jsUtcYear (year - 1) = year - 1 := by rw [jsUtcYear, if_neg]; omega
  have hu2 : jsUtcYear (year + 1) = year + 1 := by rw [jsUtcYear, if_neg]; omega
  constructor
  · have hstep := epochDaysJan1_succ (year - 1)
    have hyy : year - 1 + 1 = year := by ring
    rw [hyy] at hstep
    have harg : epochDaysJan1 year + (0 - 1) =
        epochDaysJan1 (year - 1) + (daysInYear (year - 1) - 1) := by omega
    rw [dateFromDayOfYear, dateFromDayOfYear, hu0, hu1, harg]
  · have hstep := epochDaysJan1_succ year
    have harg : epochDaysJan1 year + (daysInYear year + 1 - 1) =
        epochDaysJan1 (year + 1) + (1 - 1) := by omega
    rw [dateFromDayOfYear, dateFromDayOfYear, hu0, hu2, harg]

theorem dateFromDayOfYear_rollover_spec_witness :
    (101 : ℤ) ≤ 2024 ∧
    dateFromDayOfYear 2024 0 = dateFromDayOfYear (2024 - 1) (daysInYear (2024 - 1)) :=
  ⟨by norm_num, (dateFromDayOfYear_rollover_spec 2024 (by norm_num)).1⟩

end Solar
